import Mathlib

/-!
Verification of the zkgenomics trait-proof layer.

This file gives a shallow embedding of the Go sources (packages `zkgenomics`
and `proofs`) and proves or refutes the specification claims about them.
Go strings and byte slices are modelled as `List Char`; Go `int` as `Int`;
a Go `(value, error)` pair as a product with an `Option` error component.
The gnark proving backend and the VCF reader are external collaborators: the
reader is abstracted into the list of records it would yield, and the backend
into explicit function parameters, so every theorem quantifies over their
behaviour.
-/

namespace ZkGenomics

/-- Conversion of a Go string literal into its character-list model. -/
def gs (s : String) : List Char := s.toList

/-- `ProofResult` from proofs/proof.go: outcome tag of proof operations. -/
inductive ProofResult
  | success
  | fail
  | unknown
deriving DecidableEq

/-- The error values produced by the layer, one constructor per distinct
`fmt.Errorf` site (wrapping with `%w` is modelled by the recursive
constructors `parseFailed` and `extractFailed`). -/
inductive GoErr
  | positionNotFound (position : Nat)
  | brca1NotFound
  | herc2NotFound (position : Nat)
  | noValidEntries
  | noSamples
  | diploidCount (n : Nat)
  | missingGenotypeData
  | unsupportedGenotype (a b : Int)
  | invalidGenotypeFormat (s : List Char)
  | invalidAllele (s : List Char)
  | unsupportedDiploidString (s : List Char)
  | unsupportedGenotypeString (s : List Char)
  | parseFailed (e : GoErr)
  | extractFailed (e : GoErr)
  | referenceMismatch (expected found : List Char)
  | alternateMismatch (expected found : List Char)
  | compileError
  | setupError
  | witnessCreation
  | publicWitnessError
  | provingError
  | serializeProof
  | serializeVK
  | serializeWitness
  | missingProofOrKey
  | deserializeVK
  | deserializeProof
  | witnessNew
  | deserializeWitness
  | verificationFailed
  | allTypesFailed
deriving DecidableEq

/-- `ProofData` from proofs/proof.go: the proof bundle. -/
structure ProofData where
  proof : List Char
  verifyingKey : List Char
  publicWitness : List Char
  result : ProofResult
deriving DecidableEq

/-- The failure bundle `&ProofData{nil, nil, nil, ProofFail}` that every
generation error path returns. -/
def emptyFailProofData : ProofData := ⟨[], [], [], .fail⟩

/-- `VerificationResult` from proofs/proof.go. -/
structure VerificationResult where
  result : ProofResult
  error : Option GoErr
deriving DecidableEq

/-- `ProofType` from the facade (the five registered kinds). -/
inductive ProofType
  | chromosome
  | eyeColor
  | brca1
  | herc2
  | dynamic
deriving DecidableEq

/-- `ProofGenerator.GetSupportedProofTypes`: the declared registration order. -/
def getSupportedProofTypes : List ProofType :=
  [.chromosome, .eyeColor, .brca1, .herc2, .dynamic]

/-! ### Circuit model

A gnark `Define` body is modelled as a state transformer on the list of
asserted equalities: `api.Sub`/`api.Mul` are pure field operations and only
`api.AssertIsEqual` appends a constraint.  Circuit values live in the BN254
scalar field; the witness values this repository feeds in are tiny naturals,
far below the modulus, so modelling field elements as integers is faithful
for all properties stated here (ℤ, like the prime field, has no zero
divisors). -/

/-- The constraints accumulated by the circuit builder. -/
structure CircuitState where
  assertions : List (Int × Int)
deriving DecidableEq

/-- `api.Sub`. -/
def apiSub (x y : Int) : Int := x - y

/-- `api.Mul` with five arguments, as used by the chromosome circuit. -/
def apiMul5 (a b c d e : Int) : Int := a * b * c * d * e

/-- `api.AssertIsEqual`: record the equality constraint. -/
def apiAssertIsEqual (st : CircuitState) (x y : Int) : CircuitState :=
  ⟨st.assertions ++ [(x, y)]⟩

/-- An assignment satisfies the built circuit when every recorded assertion
holds. -/
def constraintsHold (st : CircuitState) : Bool :=
  st.assertions.all fun p => p.1 == p.2

/-- `EyeColorCircuit` from proofs/eye_color.go. -/
structure EyeColorCircuit where
  claimedColor : Int
  genotype : Int

/-- `EyeColorCircuit.Define`: the body computes `api.Sub(ClaimedColor,
Genotype)` and discards the result; no assertion is ever added. -/
def EyeColorCircuit.define (c : EyeColorCircuit) (st : CircuitState) : CircuitState :=
  let _diff := apiSub c.claimedColor c.genotype
  st

/-- `BRCA1Circuit` from proofs/brca1.go (same two fields). -/
structure BRCA1Circuit where
  claimedColor : Int
  genotype : Int

/-- `BRCA1Circuit.Define`: identical body to the eye-color circuit —
`api.Sub` with the result discarded, no assertion. -/
def BRCA1Circuit.define (c : BRCA1Circuit) (st : CircuitState) : CircuitState :=
  let _diff := apiSub c.claimedColor c.genotype
  st

/-- `HERC2Circuit` from proofs/herc2.go (same two fields). -/
structure HERC2Circuit where
  claimedColor : Int
  genotype : Int

/-- `HERC2Circuit.Define`: identical body — `api.Sub` with the result
discarded, no assertion. -/
def HERC2Circuit.define (c : HERC2Circuit) (st : CircuitState) : CircuitState :=
  let _diff := apiSub c.claimedColor c.genotype
  st

/-- `ChromosomeCircuit` from proofs/chromosome.go. -/
structure ChromosomeCircuit where
  targetChromosome : Int
  chromosome1 : Int
  chromosome2 : Int
  chromosome3 : Int
  chromosome4 : Int
  chromosome5 : Int

/-- `ChromosomeCircuit.Define`: five differences, their product asserted to
be zero. -/
def ChromosomeCircuit.define (c : ChromosomeCircuit) (st : CircuitState) : CircuitState :=
  let diff1 := apiSub c.chromosome1 c.targetChromosome
  let diff2 := apiSub c.chromosome2 c.targetChromosome
  let diff3 := apiSub c.chromosome3 c.targetChromosome
  let diff4 := apiSub c.chromosome4 c.targetChromosome
  let diff5 := apiSub c.chromosome5 c.targetChromosome
  let product := apiMul5 diff1 diff2 diff3 diff4 diff5
  apiAssertIsEqual st product 0

/-- `DynamicCircuit` from the dynamic proof source. -/
structure DynamicCircuit where
  claimedRef : Int
  claimedAlt : Int
  claimedGenotype : Int
  actualRef : Int
  actualAlt : Int
  actualGenotype : Int

/-- `DynamicCircuit.Define`: three equality assertions. -/
def DynamicCircuit.define (c : DynamicCircuit) (st : CircuitState) : CircuitState :=
  let st1 := apiAssertIsEqual st c.claimedRef c.actualRef
  let st2 := apiAssertIsEqual st1 c.claimedAlt c.actualAlt
  apiAssertIsEqual st2 c.claimedGenotype c.actualGenotype

/-! ### Decimal numerals and `strconv.Atoi`

`natReprAux` produces the decimal digits of a natural number (fuel-indexed so
that it reduces definitionally); `goAtoi` models `strconv.Atoi` — an optional
sign followed by one or more decimal digits, anything else an error.  Go's
`int` is 64-bit while the model's `Int` is unbounded; the inputs appearing in
this repository are far below the bound. -/

/-- The character of a decimal digit (`0 ≤ d ≤ 9`). -/
def digitChar (d : Nat) : Char := Char.ofNat (48 + d)

/-- Big-endian decimal digits of `n`; `fuel ≥ n` suffices. -/
def natReprAux : Nat → Nat → List Char
  | 0, _ => []
  | fuel + 1, n =>
    if n = 0 then []
    else natReprAux fuel (n / 10) ++ [digitChar (n % 10)]

/-- Decimal text of a natural number (`"0"` for zero). -/
def natRepr (n : Nat) : List Char :=
  if n = 0 then ['0'] else natReprAux n n

/-- Decimal text of an integer, with a leading minus sign when negative. -/
def intRepr (a : Int) : List Char :=
  if a < 0 then '-' :: natRepr a.natAbs else natRepr a.toNat

/-- Value of one decimal digit character, if it is one. -/
def charDigitVal (c : Char) : Option Nat :=
  if c.isDigit then some (c.toNat - 48) else none

/-- Left-to-right accumulation of decimal digits; fails on a non-digit. -/
def parseDigitsAux : List Char → Nat → Option Nat
  | [], acc => some acc
  | c :: cs, acc =>
    match charDigitVal c with
    | some d => parseDigitsAux cs (10 * acc + d)
    | none => none

/-- One or more decimal digits. -/
def parseDigits (s : List Char) : Option Nat :=
  if s = [] then none else parseDigitsAux s 0

/-- `strconv.Atoi`: optional `-`/`+` sign, then decimal digits. -/
def goAtoi (s : List Char) : Option Int :=
  match s with
  | [] => none
  | c :: rest =>
    if c = '-' then (parseDigits rest).map fun n => -(n : Int)
    else if c = '+' then (parseDigits rest).map fun n => (n : Int)
    else (parseDigits (c :: rest)).map fun n => (n : Int)

/-- `strings.Split` with a one-character separator. -/
def splitChar (sep : Char) : List Char → List (List Char)
  | [] => [[]]
  | c :: cs =>
    match splitChar sep cs with
    | [] => [[]]
    | cur :: rest => if c = sep then [] :: cur :: rest else (c :: cur) :: rest

/-- `strings.Contains` with a one-character needle, i.e. membership. -/
def stringsContains (s : List Char) (c : Char) : Bool := decide (c ∈ s)

/-- The textual encoding of an allele pair under a separator (the "genotype
string formed from a and b" of the specification). -/
def genotypeText (a b : Int) (sep : Char) : List Char :=
  intRepr a ++ sep :: intRepr b

/-! ### Genotype decoding (`DynamicProof.parseGenotypeFromInts` /
`DynamicProof.parseGenotype`) -/

/-- `DynamicProof.parseGenotypeFromInts`: decode a diploid allele-index pair
into the genotype integer 0/1/2. -/
def parseGenotypeFromInts (genotypeInts : List Int) : Except GoErr Int :=
  match genotypeInts with
  | [allele1, allele2] =>
    if allele1 < 0 ∨ allele2 < 0 then .error .missingGenotypeData
    else if allele1 = 0 ∧ allele2 = 0 then .ok 0
    else if (allele1 = 0 ∧ allele2 = 1) ∨ (allele1 = 1 ∧ allele2 = 0) then .ok 1
    else if allele1 = 1 ∧ allele2 = 1 then .ok 2
    else .error (.unsupportedGenotype allele1 allele2)
  | l => .error (.diploidCount l.length)

/-- `DynamicProof.parseGenotype`: decode a textual genotype such as `0/1` or
`1|1`; the `ref`/`alt` parameters are accepted and ignored, as in the source. -/
def parseGenotype (genotypeStr _ref _alt : List Char) : Except GoErr Int :=
  let alleles : Option (List (List Char)) :=
    if stringsContains genotypeStr '/' then some (splitChar '/' genotypeStr)
    else if stringsContains genotypeStr '|' then some (splitChar '|' genotypeStr)
    else none
  match alleles with
  | none => .error (.invalidGenotypeFormat genotypeStr)
  | some [a1s, a2s] =>
    match goAtoi a1s with
    | none => .error (.invalidAllele a1s)
    | some allele1 =>
      match goAtoi a2s with
      | none => .error (.invalidAllele a2s)
      | some allele2 =>
        if allele1 = 0 ∧ allele2 = 0 then .ok 0
        else if (allele1 = 0 ∧ allele2 = 1) ∨ (allele1 = 1 ∧ allele2 = 0) then .ok 1
        else if allele1 = 1 ∧ allele2 = 1 then .ok 2
        else .error (.unsupportedGenotypeString genotypeStr)
  | some _ => .error (.unsupportedDiploidString genotypeStr)

/-- `stringToInt`: the nucleotide-letter code (A=0, T=1, G=2, C=3,
case-insensitive, anything else 0). -/
def stringToInt (s : List Char) : Int :=
  let u := s.map Char.toUpper
  if u = ['A'] then 0
  else if u = ['T'] then 1
  else if u = ['G'] then 2
  else if u = ['C'] then 3
  else 0

/-! ### Variant records and the locate step

The external VCF reader is abstracted into the ordered list of records it
yields; a record carries the fields the layer reads. -/

/-- One per-sample entry: the diploid allele-index call (`GT`). -/
structure VcfSample where
  gt : List Int
deriving DecidableEq

/-- One variant record as exposed by the reader. -/
structure VariantRecord where
  chromosome : List Char
  pos : Nat
  reference : List Char
  alternate : List (List Char)
  samples : List VcfSample
deriving DecidableEq

/-- `DynamicProof.extractGenotypeAtPosition`: single forward scan for the
first record at `position`; decode its first sample.  Returns the genotype,
the reference allele, and the first alternate allele (empty when the record
lists none). -/
def extractGenotypeAtPosition (records : List VariantRecord) (position : Nat) :
    Except GoErr (Int × List Char × List Char) :=
  match records with
  | [] => .error (.positionNotFound position)
  | v :: rest =>
    if v.pos = position then
      match v.samples with
      | [] => .error .noSamples
      | sample :: _ =>
        let ref := v.reference
        let alt := match v.alternate with | [] => [] | a :: _ => a
        match parseGenotypeFromInts sample.gt with
        | .error e => .error (.parseFailed e)
        | .ok genotype => .ok (genotype, ref, alt)
    else extractGenotypeAtPosition rest position

/-! ### Backend abstraction

The gnark compile → setup → witness → prove → serialize chain is external.
It is modelled as a function from the witness values the layer feeds it to
either an error (any stage may fail; the layer turns every such error into
the same empty failure bundle) or the three serialized artifacts. -/

/-- The serialized artifacts a successful backend run yields. -/
structure Artifacts where
  proof : List Char
  vk : List Char
  publicWitness : List Char
deriving DecidableEq

/-- A backend whose serialized proof and verifying key are never empty. -/
def dynBackendNonEmpty (bk : Int → Int → Int → Except GoErr Artifacts) : Prop :=
  ∀ r a g arts, bk r a g = .ok arts → arts.proof ≠ [] ∧ arts.vk ≠ []

/-- Same property for the chromosome-circuit backend. -/
def chromBackendNonEmpty (bk : Int → List Int → Except GoErr Artifacts) : Prop :=
  ∀ t slots arts, bk t slots = .ok arts → arts.proof ≠ [] ∧ arts.vk ≠ []

/-- `DynamicProof.GenerateDynamic`: locate and decode the genotype, check the
expected reference/alternate alleles, then run the backend on the witness
values and wrap its artifacts.  Every failure returns the empty fail bundle
together with the originating error. -/
def DynamicProof.generateDynamic (bk : Int → Int → Int → Except GoErr Artifacts)
    (records : List VariantRecord) (position : Nat) (ref alt : List Char) :
    ProofData × Option GoErr :=
  match extractGenotypeAtPosition records position with
  | .error e => (emptyFailProofData, some (.extractFailed e))
  | .ok (genotype, actualRef, actualAlt) =>
    if actualRef ≠ ref then
      (emptyFailProofData, some (.referenceMismatch ref actualRef))
    else if actualAlt ≠ alt then
      (emptyFailProofData, some (.alternateMismatch alt actualAlt))
    else
      match bk (stringToInt actualRef) (stringToInt actualAlt) genotype with
      | .error e => (emptyFailProofData, some e)
      | .ok arts => (⟨arts.proof, arts.vk, arts.publicWitness, .success⟩, none)

/-- `BRCA1Proof.Generate`: scan for position 41276045; on a hit return the
simulated bundle, otherwise the empty fail bundle and an error. -/
def BRCA1Proof.generate : List VariantRecord → ProofData × Option GoErr
  | [] => (emptyFailProofData, some .brca1NotFound)
  | v :: rest =>
    if v.pos = 41276045 then
      (⟨gs "brca1_proof_pos_" ++ natRepr v.pos,
        gs "brca1_verifying_key",
        gs "brca1_witness_chr_" ++ v.chromosome ++ gs "_pos_" ++ natRepr v.pos,
        .success⟩, none)
    else BRCA1Proof.generate rest

/-- The fixed HERC2 position `HERC2Pos`. -/
def herc2Pos : Nat := 28365618

/-- `HERC2Proof.Generate`: scan for `HERC2Pos`, analogous to BRCA1. -/
def HERC2Proof.generate : List VariantRecord → ProofData × Option GoErr
  | [] => (emptyFailProofData, some (.herc2NotFound herc2Pos))
  | v :: rest =>
    if v.pos = herc2Pos then
      (⟨gs "herc2_proof_pos_" ++ natRepr v.pos,
        gs "herc2_verifying_key",
        gs "herc2_witness_chr_" ++ v.chromosome ++ gs "_pos_" ++ natRepr v.pos,
        .success⟩, none)
    else HERC2Proof.generate rest

/-- `EyeColorProof.Generate`: simulated generation — unconditionally returns
the literal bundle with a success result (its path arguments are unused). -/
def EyeColorProof.generate (_vcfPath _provingKeyPath _outputPath : List Char) :
    ProofData × Option GoErr :=
  (⟨gs "eye_color_proof_data",
    gs "eye_color_verifying_key",
    gs "eye_color_public_witness",
    .success⟩, none)

/-! ### Chromosome extraction and generation -/

/-- `strings.TrimPrefix(chrStr, "chr")`. -/
def stripChr (s : List Char) : List Char :=
  match s with
  | 'c' :: 'h' :: 'r' :: rest => rest
  | _ => s

/-- One chromosome label parsed to an integer, if it parses. -/
def parseChrLabel (label : List Char) : Option Int :=
  goAtoi (stripChr label)

/-- The collection loop of `extractChromosomeNumbers`: append each label that
parses, and stop as soon as `count ≥ maxCount` (checked after each record). -/
def extractChromosomeLoop (maxCount : Nat) : List (List Char) → Nat → List Int
  | [], _ => []
  | label :: rest, count =>
    match parseChrLabel label with
    | some n =>
      if count + 1 ≥ maxCount then [n]
      else n :: extractChromosomeLoop maxCount rest (count + 1)
    | none =>
      if count ≥ maxCount then []
      else extractChromosomeLoop maxCount rest count

/-- `extractChromosomeNumbers` over the reader's chromosome labels. -/
def extractChromosomeNumbers (labels : List (List Char)) (maxCount : Nat) : List Int :=
  extractChromosomeLoop maxCount labels 0

/-- The fixed-size padding step of `ChromosomeProof.Generate`: slot `i` is
element `i` when present, zero otherwise. -/
def padTo5 (l : List Int) : List Int :=
  [l.getD 0 0, l.getD 1 0, l.getD 2 0, l.getD 3 0, l.getD 4 0]

/-- The five private witness slots chromosome generation feeds the circuit:
the padded form of the (up to ten) extracted chromosome numbers. -/
def chromosomeWitnessSlots (labels : List (List Char)) : List Int :=
  padTo5 (extractChromosomeNumbers labels 10)

/-- `ChromosomeProof.Generate`: extract up to ten chromosome numbers, fail
when none parse, otherwise prove presence of the fixed target 22 over the
padded five-slot window via the backend. -/
def ChromosomeProof.generate (bk : Int → List Int → Except GoErr Artifacts)
    (labels : List (List Char)) : ProofData × Option GoErr :=
  let chromosomes := extractChromosomeNumbers labels 10
  if chromosomes = [] then (emptyFailProofData, some .noValidEntries)
  else
    let targetChromosome : Int := 22
    match bk targetChromosome (padTo5 chromosomes) with
    | .error e => (emptyFailProofData, some e)
    | .ok arts => (⟨arts.proof, arts.vk, arts.publicWitness, .success⟩, none)

/-! ### Path-based Verify methods

In the current sources every per-kind `Verify(verifyingKeyPath, proofPath)`
is a stub that returns a success result and a nil error without reading its
arguments or calling the backend; the functions below are therefore constant
in their path arguments. -/

/-- `ChromosomeProof.Verify` (path form): unconditional success. -/
def ChromosomeProof.verify (_verifyingKeyPath _proofPath : List Char) : VerificationResult :=
  ⟨.success, none⟩

/-- `EyeColorProof.Verify` (path form): unconditional success. -/
def EyeColorProof.verify (_verifyingKeyPath _proofPath : List Char) : VerificationResult :=
  ⟨.success, none⟩

/-- `BRCA1Proof.Verify` (path form): unconditional success. -/
def BRCA1Proof.verify (_verifyingKeyPath _proofPath : List Char) : VerificationResult :=
  ⟨.success, none⟩

/-- `HERC2Proof.Verify` (path form): unconditional success. -/
def HERC2Proof.verify (_verifyingKeyPath _proofPath : List Char) : VerificationResult :=
  ⟨.success, none⟩

/-- `DynamicProof.Verify` (path form): unconditional success. -/
def DynamicProof.verify (_verifyingKeyPath _proofPath : List Char) : VerificationResult :=
  ⟨.success, none⟩

/-! ### Bundle-based VerifyProofData

The gnark deserialize-and-verify sequence is abstracted into one outcome per
bundle: which stage fails first, or a verified result. -/

/-- Outcome of the backend's deserialize/verify sequence on a bundle. -/
inductive BackendVerifyOutcome
  | vkReadError
  | proofReadError
  | witnessNewError
  | witnessUnmarshalError
  | verifyError
  | verified
deriving DecidableEq

/-- `EyeColorProof.VerifyProofData`: fail fast on an empty proof or key, then
run the backend sequence. -/
def EyeColorProof.verifyProofData (bk : ProofData → BackendVerifyOutcome)
    (proofData : ProofData) : VerificationResult :=
  if proofData.proof = [] ∨ proofData.verifyingKey = [] then
    ⟨.fail, some .missingProofOrKey⟩
  else
    match bk proofData with
    | .vkReadError => ⟨.fail, some .deserializeVK⟩
    | .proofReadError => ⟨.fail, some .deserializeProof⟩
    | .witnessNewError => ⟨.fail, some .witnessNew⟩
    | .witnessUnmarshalError => ⟨.fail, some .deserializeWitness⟩
    | .verifyError => ⟨.fail, some .verificationFailed⟩
    | .verified => ⟨.success, none⟩

/-- `BRCA1Proof.VerifyProofData`: textually identical body in the source. -/
def BRCA1Proof.verifyProofData (bk : ProofData → BackendVerifyOutcome)
    (proofData : ProofData) : VerificationResult :=
  if proofData.proof = [] ∨ proofData.verifyingKey = [] then
    ⟨.fail, some .missingProofOrKey⟩
  else
    match bk proofData with
    | .vkReadError => ⟨.fail, some .deserializeVK⟩
    | .proofReadError => ⟨.fail, some .deserializeProof⟩
    | .witnessNewError => ⟨.fail, some .witnessNew⟩
    | .witnessUnmarshalError => ⟨.fail, some .deserializeWitness⟩
    | .verifyError => ⟨.fail, some .verificationFailed⟩
    | .verified => ⟨.success, none⟩

/-- `HERC2Proof.VerifyProofData`: textually identical body in the source. -/
def HERC2Proof.verifyProofData (bk : ProofData → BackendVerifyOutcome)
    (proofData : ProofData) : VerificationResult :=
  if proofData.proof = [] ∨ proofData.verifyingKey = [] then
    ⟨.fail, some .missingProofOrKey⟩
  else
    match bk proofData with
    | .vkReadError => ⟨.fail, some .deserializeVK⟩
    | .proofReadError => ⟨.fail, some .deserializeProof⟩
    | .witnessNewError => ⟨.fail, some .witnessNew⟩
    | .witnessUnmarshalError => ⟨.fail, some .deserializeWitness⟩
    | .verifyError => ⟨.fail, some .verificationFailed⟩
    | .verified => ⟨.success, none⟩

/-- `DynamicProof.VerifyProofData`: textually identical body in the source. -/
def DynamicProof.verifyProofData (bk : ProofData → BackendVerifyOutcome)
    (proofData : ProofData) : VerificationResult :=
  if proofData.proof = [] ∨ proofData.verifyingKey = [] then
    ⟨.fail, some .missingProofOrKey⟩
  else
    match bk proofData with
    | .vkReadError => ⟨.fail, some .deserializeVK⟩
    | .proofReadError => ⟨.fail, some .deserializeProof⟩
    | .witnessNewError => ⟨.fail, some .witnessNew⟩
    | .witnessUnmarshalError => ⟨.fail, some .deserializeWitness⟩
    | .verifyError => ⟨.fail, some .verificationFailed⟩
    | .verified => ⟨.success, none⟩

/-- Result of a Go call that returns `(value, error)` and may also fault:
`ok` models a nil error, `err` a non-nil returned error, and `faulted` a
runtime fault that unwinds past the caller (no `recover` exists in this
code base). -/
inductive GoCall (α : Type)
  | ok (value : α)
  | err (e : GoErr)
  | faulted
deriving DecidableEq

/-- `ProofGenerator.VerifyProofData`: dispatch on the proof type.
`ChromosomeProof` declares no `VerifyProofData` method; the call is promoted
through its embedded `Proof` interface field, which is nil in the
`&proofs.ChromosomeProof{}` value the dispatcher builds, so the call faults
at run time.  The other four kinds run their shared verification body. -/
def pgVerifyProofData (bk : ProofData → BackendVerifyOutcome)
    (proofType : ProofType) (proofData : ProofData) : GoCall VerificationResult :=
  match proofType with
  | .chromosome => .faulted
  | .eyeColor => .ok (EyeColorProof.verifyProofData bk proofData)
  | .brca1 => .ok (BRCA1Proof.verifyProofData bk proofData)
  | .herc2 => .ok (HERC2Proof.verifyProofData bk proofData)
  | .dynamic => .ok (DynamicProof.verifyProofData bk proofData)

/-- The trial loop of `ProofGenerator.VerifyAnyProofData`: a returned error
means try the next kind; a success result returns that kind immediately; a
fault unwinds.  Exhaustion returns the empty kind marker with a fail result
and a nil error. -/
def verifyAnyLoop (bk : ProofData → BackendVerifyOutcome) (proofData : ProofData) :
    List ProofType → GoCall (Option ProofType × VerificationResult)
  | [] => .ok (none, ⟨.fail, some .allTypesFailed⟩)
  | t :: rest =>
    match pgVerifyProofData bk t proofData with
    | .faulted => .faulted
    | .err _ => verifyAnyLoop bk proofData rest
    | .ok r =>
      if r.result = .success then .ok (some t, r)
      else verifyAnyLoop bk proofData rest

/-- `ProofGenerator.VerifyAnyProofData`: try every supported kind in
registration order. -/
def pgVerifyAnyProofData (bk : ProofData → BackendVerifyOutcome)
    (proofData : ProofData) : GoCall (Option ProofType × VerificationResult) :=
  verifyAnyLoop bk proofData getSupportedProofTypes

/-! ### Concrete inputs used by witnesses and counterexamples -/

/-- A bundle with empty proof and verifying-key bytes. -/
def emptyBundle : ProofData := ⟨[], [], gs "test_witness", .unknown⟩

/-- The fake bundle from the repository's own facade tests. -/
def fakeBundle : ProofData :=
  ⟨gs "test_proof_data", gs "test_verifying_key", gs "test_public_witness", .success⟩

/-- A backend whose deserialize step always rejects. -/
def rejectingVerifyBackend : ProofData → BackendVerifyOutcome := fun _ => .vkReadError

/-- A backend that verifies every bundle. -/
def acceptingVerifyBackend : ProofData → BackendVerifyOutcome := fun _ => .verified

/-- A generation backend producing fixed non-empty artifacts. -/
def demoDynBackend : Int → Int → Int → Except GoErr Artifacts :=
  fun _ _ _ => .ok ⟨gs "proof_bytes", gs "vk_bytes", gs "witness_bytes"⟩

/-- A chromosome generation backend producing fixed non-empty artifacts. -/
def demoChromBackend : Int → List Int → Except GoErr Artifacts :=
  fun _ _ => .ok ⟨gs "proof_bytes", gs "vk_bytes", gs "witness_bytes"⟩

/-- Scenario C record: position 28356859 with reference `G` and alternate
`C`, heterozygous first sample. -/
def scenarioCRecords : List VariantRecord :=
  [⟨gs "15", 28356859, gs "G", [gs "C"], [⟨[0, 1]⟩]⟩]

/-- Scenario E chromosome labels: ten records with chromosome numbers
1, 5, 22, 3, 8, 9, 2, 6, 7, 22. -/
def scenarioELabels : List (List Char) :=
  [gs "1", gs "5", gs "22", gs "3", gs "8", gs "9", gs "2", gs "6", gs "7", gs "22"]

/-! ## Theorems -/

/-- C1: the specification states that the eye-color, HERC2 and BRCA1
circuits constrain their single public signal to equal their single private
signal.  In the code each `Define` body computes `api.Sub(ClaimedColor,
Genotype)` and discards the result without any `AssertIsEqual`, so the
constraint set is empty and is satisfied by every assignment — in
particular by claimed value 1 against observed genotype 0, refuting
"satisfiable exactly when the claimed value equals the observed value". -/
theorem claim_C1_circuits_unconstrained :
    (∀ claimed genotype : Int,
        constraintsHold (EyeColorCircuit.define ⟨claimed, genotype⟩ ⟨[]⟩) = true) ∧
    (∀ claimed genotype : Int,
        constraintsHold (BRCA1Circuit.define ⟨claimed, genotype⟩ ⟨[]⟩) = true) ∧
    (∀ claimed genotype : Int,
        constraintsHold (HERC2Circuit.define ⟨claimed, genotype⟩ ⟨[]⟩) = true) ∧
    constraintsHold (EyeColorCircuit.define ⟨1, 0⟩ ⟨[]⟩) = true :=
  ⟨fun _ _ => rfl, fun _ _ => rfl, fun _ _ => rfl, rfl⟩

/-- C2: a bundle with empty proof and verifying-key bytes is rejected fast,
independently of the backend, by the eye-color, BRCA1, HERC2 and dynamic
verifiers — but dispatching the chromosome kind faults (its
`VerifyProofData` is promoted from a nil embedded interface), instead of
returning a fail outcome. -/
theorem claim_C2_empty_bundle_fail_and_chromosome_fault :
    pgVerifyProofData rejectingVerifyBackend .eyeColor emptyBundle =
      .ok ⟨.fail, some .missingProofOrKey⟩ ∧
    pgVerifyProofData acceptingVerifyBackend .eyeColor emptyBundle =
      .ok ⟨.fail, some .missingProofOrKey⟩ ∧
    pgVerifyProofData rejectingVerifyBackend .brca1 emptyBundle =
      .ok ⟨.fail, some .missingProofOrKey⟩ ∧
    pgVerifyProofData rejectingVerifyBackend .herc2 emptyBundle =
      .ok ⟨.fail, some .missingProofOrKey⟩ ∧
    pgVerifyProofData rejectingVerifyBackend .dynamic emptyBundle =
      .ok ⟨.fail, some .missingProofOrKey⟩ ∧
    pgVerifyProofData acceptingVerifyBackend .chromosome emptyBundle = .faulted := by
  refine ⟨?_, ?_, ?_, ?_, ?_, rfl⟩ <;> decide

/-- C3: the claim states `VerifyAnyProofData` always returns a kind/outcome
pair.  The registration order starts with the chromosome kind, whose
dispatch faults on every bundle, so the trial loop faults before any pair
can be returned, for every backend behaviour and every input bundle. -/
theorem claim_C3_verify_any_faults (bk : ProofData → BackendVerifyOutcome)
    (proofData : ProofData) :
    pgVerifyAnyProofData bk proofData = .faulted := rfl

/-- C10: the claim states per-kind failures are skipped and the returned
error is always nil.  On the repository's own test bundle the call faults at
the first (chromosome) kind; had the loop started past the chromosome kind,
failing kinds would indeed be skipped and the exhaustion pair (empty kind,
fail result, nil error) returned. -/
theorem claim_C10_verify_any_aborts :
    pgVerifyAnyProofData rejectingVerifyBackend fakeBundle = .faulted ∧
    verifyAnyLoop rejectingVerifyBackend fakeBundle
        [.eyeColor, .brca1, .herc2, .dynamic] =
      .ok (none, ⟨.fail, some .allTypesFailed⟩) := by
  exact ⟨rfl, by decide⟩

/-- C4 counterexample: every path-based `Verify` returns a success outcome
on paths that name no existing artifacts; the definitions consult no
backend at all (they are constant functions), so this success is produced
without any backend verification, refuting "success only when the backend
verification succeeds". -/
theorem claim_C4_counterexample :
    ChromosomeProof.verify (gs "missing.vk") (gs "missing.proof") = ⟨.success, none⟩ ∧
    BRCA1Proof.verify (gs "missing.vk") (gs "missing.proof") = ⟨.success, none⟩ ∧
    HERC2Proof.verify (gs "missing.vk") (gs "missing.proof") = ⟨.success, none⟩ ∧
    EyeColorProof.verify (gs "missing.vk") (gs "missing.proof") = ⟨.success, none⟩ ∧
    DynamicProof.verify (gs "missing.vk") (gs "missing.proof") = ⟨.success, none⟩ :=
  ⟨rfl, rfl, rfl, rfl, rfl⟩

/-- C4 amended: the path-based verify operation of every supported kind is a
demonstration stub — it returns outcome success with a nil error for all
inputs, without delegating to the proving backend; backend delegation
exists only in the bundle-based `VerifyProofData`. -/
theorem claim_C4_amended_path_verify_stub (vkPath proofPath : List Char) :
    ChromosomeProof.verify vkPath proofPath = ⟨.success, none⟩ ∧
    BRCA1Proof.verify vkPath proofPath = ⟨.success, none⟩ ∧
    HERC2Proof.verify vkPath proofPath = ⟨.success, none⟩ ∧
    EyeColorProof.verify vkPath proofPath = ⟨.success, none⟩ ∧
    DynamicProof.verify vkPath proofPath = ⟨.success, none⟩ :=
  ⟨rfl, rfl, rfl, rfl, rfl⟩

/-- C6: the allele decoder maps (0,0) to 0, a mixed 0/1 pair to 1, (1,1) to
2, rejects any negative allele index with the missing-data error, rejects
every other pair instead of defaulting, and only ever produces genotypes in
{0, 1, 2}. -/
theorem claim_C6_decode_alleles (a b : Int) :
    (a = 0 ∧ b = 0 → parseGenotypeFromInts [a, b] = .ok 0) ∧
    ((a = 0 ∧ b = 1) ∨ (a = 1 ∧ b = 0) → parseGenotypeFromInts [a, b] = .ok 1) ∧
    (a = 1 ∧ b = 1 → parseGenotypeFromInts [a, b] = .ok 2) ∧
    (a < 0 ∨ b < 0 → parseGenotypeFromInts [a, b] = .error .missingGenotypeData) ∧
    (0 ≤ a → 0 ≤ b → ¬((a = 0 ∨ a = 1) ∧ (b = 0 ∨ b = 1)) →
      parseGenotypeFromInts [a, b] = .error (.unsupportedGenotype a b)) ∧
    (∀ g, parseGenotypeFromInts [a, b] = .ok g → g = 0 ∨ g = 1 ∨ g = 2) := by
  simp only [parseGenotypeFromInts]
  refine ⟨?_, ?_, ?_, ?_, ?_, ?_⟩
  · intro h; split_ifs <;> first | rfl | (exfalso; omega)
  · intro h; split_ifs <;> first | rfl | (exfalso; omega)
  · intro h; split_ifs <;> first | rfl | (exfalso; omega)
  · intro h; split_ifs <;> first | rfl | (exfalso; omega)
  · intro h1 h2 h3; split_ifs <;> first | rfl | (exfalso; omega)
  · intro g hg; split_ifs at hg <;> (cases hg <;> omega)

/-- C6 witness: the decoder at the concrete pairs (1,0) and (−1,0). -/
theorem claim_C6_witness :
    parseGenotypeFromInts [(1 : Int), 0] = .ok 1 ∧
    parseGenotypeFromInts [(-1 : Int), 0] = .error .missingGenotypeData :=
  ⟨(claim_C6_decode_alleles 1 0).2.1 (by decide),
   (claim_C6_decode_alleles (-1) 0).2.2.2.1 (by decide)⟩

/-- C5: every locate/decode failure of dynamic generation yields the empty
fail bundle together with the wrapped originating error; a located record
whose reference or alternate allele differs from the expected one yields
the corresponding mismatch error, which is distinct from the wrapped
position-not-found error; BRCA1 generation over a source without the BRCA1
position yields the empty fail bundle and its not-found error; and on the
Scenario C input (record at 28356859 with reference G, alternate C,
expected G/A) the result is the alternate-mismatch error. -/
theorem claim_C5_generation_failures :
    (∀ bk records position ref alt e,
        extractGenotypeAtPosition records position = .error e →
        DynamicProof.generateDynamic bk records position ref alt =
          (emptyFailProofData, some (.extractFailed e))) ∧
    (∀ bk records position ref alt genotype actualRef actualAlt,
        extractGenotypeAtPosition records position = .ok (genotype, actualRef, actualAlt) →
        actualRef ≠ ref →
        DynamicProof.generateDynamic bk records position ref alt =
          (emptyFailProofData, some (.referenceMismatch ref actualRef))) ∧
    (∀ bk records position ref alt genotype actualAlt,
        extractGenotypeAtPosition records position = .ok (genotype, ref, actualAlt) →
        actualAlt ≠ alt →
        DynamicProof.generateDynamic bk records position ref alt =
          (emptyFailProofData, some (.alternateMismatch alt actualAlt))) ∧
    (∀ records, (∀ v ∈ records, v.pos ≠ 41276045) →
        BRCA1Proof.generate records = (emptyFailProofData, some .brca1NotFound)) ∧
    DynamicProof.generateDynamic demoDynBackend scenarioCRecords 28356859
        (gs "G") (gs "A") =
      (emptyFailProofData, some (.alternateMismatch (gs "A") (gs "C"))) ∧
    GoErr.alternateMismatch (gs "A") (gs "C") ≠
      .extractFailed (.positionNotFound 28356859) := by
  refine ⟨?_, ?_, ?_, ?_, by decide, by decide⟩
  · intro bk records position ref alt e he
    simp [DynamicProof.generateDynamic, he]
  · intro bk records position ref alt genotype actualRef actualAlt he hne
    simp [DynamicProof.generateDynamic, he, hne]
  · intro bk records position ref alt genotype actualAlt he hne
    simp [DynamicProof.generateDynamic, he, hne]
  · intro records h
    induction records with
    | nil => rfl
    | cons v rest ih =>
      have hv : v.pos ≠ 41276045 := h v (List.mem_cons_self _ _)
      simp only [BRCA1Proof.generate, if_neg hv]
      exact ih fun x hx => h x (List.mem_cons_of_mem _ hx)

/-- C5 witness: dynamic generation over an empty record list fails with the
wrapped position-not-found error and empty artifacts. -/
theorem claim_C5_witness :
    DynamicProof.generateDynamic demoDynBackend [] 28356859 (gs "G") (gs "A") =
      (emptyFailProofData, some (.extractFailed (.positionNotFound 28356859))) :=
  claim_C5_generation_failures.1 demoDynBackend [] 28356859 (gs "G") (gs "A")
    (.positionNotFound 28356859) rfl

/-- The collection loop takes the parsed labels in encounter order, up to
the remaining budget. -/
theorem extractChromosomeLoop_eq (maxCount : Nat) :
    ∀ (labels : List (List Char)) (count : Nat), count < maxCount →
      extractChromosomeLoop maxCount labels count =
        (labels.filterMap parseChrLabel).take (maxCount - count) := by
  intro labels
  induction labels with
  | nil => intro count _; simp [extractChromosomeLoop]
  | cons label rest ih =>
    intro count h
    cases hp : parseChrLabel label with
    | none =>
      simp only [extractChromosomeLoop, hp, List.filterMap_cons]
      rw [if_neg (by omega)]
      exact ih count h
    | some n =>
      simp only [extractChromosomeLoop, hp, List.filterMap_cons]
      by_cases hfull : count + 1 ≥ maxCount
      · rw [if_pos hfull]
        have h1 : maxCount - count = 1 := by omega
        rw [h1]
        simp
      · rw [if_neg hfull]
        rw [ih (count + 1) (by omega)]
        have h1 : maxCount - count = (maxCount - (count + 1)) + 1 := by omega
        rw [h1, List.take_succ_cons]

/-- The extraction keeps the first `maxCount` parsed labels. -/
theorem extractChromosomeNumbers_eq_take (labels : List (List Char)) (maxCount : Nat)
    (h : 0 < maxCount) :
    extractChromosomeNumbers labels maxCount =
      (labels.filterMap parseChrLabel).take maxCount := by
  simpa using extractChromosomeLoop_eq maxCount labels 0 h

/-- A padded read below the truncation bound sees the original list. -/
theorem getD_take_of_lt (l : List Int) (i k : Nat) (hik : i < k) :
    (l.take k).getD i 0 = l.getD i 0 := by
  simp [List.getD, List.get?_eq_getElem?, List.getElem?_take, hik]

/-- Padding reads only the first five positions. -/
theorem padTo5_take (l : List Int) (k : Nat) (hk : 5 ≤ k) :
    padTo5 (l.take k) = padTo5 (l.take 5) := by
  simp only [padTo5]
  rw [getD_take_of_lt l 0 k (by omega), getD_take_of_lt l 1 k (by omega),
    getD_take_of_lt l 2 k (by omega), getD_take_of_lt l 3 k (by omega),
    getD_take_of_lt l 4 k (by omega), getD_take_of_lt l 0 5 (by omega),
    getD_take_of_lt l 1 5 (by omega), getD_take_of_lt l 2 5 (by omega),
    getD_take_of_lt l 3 5 (by omega), getD_take_of_lt l 4 5 (by omega)]

/-- C8: the five private witness slots of chromosome generation are the
first five parsed chromosome numbers in encounter order, zero-padded; the
circuit constraint holds exactly when the product of the slot-minus-target
differences is zero; and on the Scenario E labels the window is
[1, 5, 22, 3, 8] with the constraint holding for target 22. -/
theorem claim_C8_chromosome_window :
    (∀ labels : List (List Char),
        chromosomeWitnessSlots labels =
          padTo5 ((labels.filterMap parseChrLabel).take 5)) ∧
    (∀ target c1 c2 c3 c4 c5 : Int,
        constraintsHold (ChromosomeCircuit.define ⟨target, c1, c2, c3, c4, c5⟩ ⟨[]⟩) = true ↔
          (c1 - target) * (c2 - target) * (c3 - target) * (c4 - target) * (c5 - target) = 0) ∧
    chromosomeWitnessSlots scenarioELabels = [1, 5, 22, 3, 8] ∧
    constraintsHold (ChromosomeCircuit.define ⟨22, 1, 5, 22, 3, 8⟩ ⟨[]⟩) = true := by
  refine ⟨?_, ?_, by decide, by decide⟩
  · intro labels
    unfold chromosomeWitnessSlots
    rw [extractChromosomeNumbers_eq_take labels 10 (by omega)]
    exact padTo5_take _ 10 (by omega)
  · intro target c1 c2 c3 c4 c5
    simp [constraintsHold, ChromosomeCircuit.define, apiAssertIsEqual, apiSub, apiMul5]

/-- C9: a success bundle from any of the five generators carries non-empty
proof and verifying-key bytes — unconditionally for the three kinds whose
bytes are literals, and under the assumption that the backend serializes to
non-empty bytes for the two kinds that pass gnark artifacts through. -/
theorem claim_C9_success_nonempty :
    (∀ p k o, (EyeColorProof.generate p k o).1.result = .success →
        (EyeColorProof.generate p k o).1.proof ≠ [] ∧
        (EyeColorProof.generate p k o).1.verifyingKey ≠ []) ∧
    (∀ records, (BRCA1Proof.generate records).1.result = .success →
        (BRCA1Proof.generate records).1.proof ≠ [] ∧
        (BRCA1Proof.generate records).1.verifyingKey ≠ []) ∧
    (∀ records, (HERC2Proof.generate records).1.result = .success →
        (HERC2Proof.generate records).1.proof ≠ [] ∧
        (HERC2Proof.generate records).1.verifyingKey ≠ []) ∧
    (∀ bk labels, chromBackendNonEmpty bk →
        (ChromosomeProof.generate bk labels).1.result = .success →
        (ChromosomeProof.generate bk labels).1.proof ≠ [] ∧
        (ChromosomeProof.generate bk labels).1.verifyingKey ≠ []) ∧
    (∀ bk records position ref alt, dynBackendNonEmpty bk →
        (DynamicProof.generateDynamic bk records position ref alt).1.result = .success →
        (DynamicProof.generateDynamic bk records position ref alt).1.proof ≠ [] ∧
        (DynamicProof.generateDynamic bk records position ref alt).1.verifyingKey ≠ []) := by
  refine ⟨?_, ?_, ?_, ?_, ?_⟩
  · intro p k o _
    exact ⟨by simp [EyeColorProof.generate, gs], by simp [EyeColorProof.generate, gs]⟩
  · intro records
    induction records with
    | nil => intro h; simp [BRCA1Proof.generate, emptyFailProofData] at h
    | cons v rest ih =>
      intro h
      by_cases hv : v.pos = 41276045
      · simp [BRCA1Proof.generate, hv, gs]
      · simp only [BRCA1Proof.generate, if_neg hv] at h ⊢
        exact ih h
  · intro records
    induction records with
    | nil => intro h; simp [HERC2Proof.generate, emptyFailProofData] at h
    | cons v rest ih =>
      intro h
      by_cases hv : v.pos = herc2Pos
      · simp [HERC2Proof.generate, hv, gs]
      · simp only [HERC2Proof.generate, if_neg hv] at h ⊢
        exact ih h
  · intro bk labels hbk
    by_cases hempty : extractChromosomeNumbers labels 10 = []
    · intro h
      simp [ChromosomeProof.generate, hempty, emptyFailProofData] at h
    · cases hrun : bk 22 (padTo5 (extractChromosomeNumbers labels 10)) with
      | error e =>
        intro h
        simp [ChromosomeProof.generate, hempty, hrun, emptyFailProofData] at h
      | ok arts =>
        intro _
        have hne := hbk 22 _ arts hrun
        simp only [ChromosomeProof.generate, if_neg hempty, hrun]
        exact hne
  · intro bk records position ref alt hbk
    cases hex : extractGenotypeAtPosition records position with
    | error e =>
      intro h
      simp [DynamicProof.generateDynamic, hex, emptyFailProofData] at h
    | ok v =>
      obtain ⟨genotype, actualRef, actualAlt⟩ := v
      by_cases href : actualRef = ref
      · subst href
        by_cases halt : actualAlt = alt
        · subst halt
          cases hrun : bk (stringToInt actualRef) (stringToInt actualAlt) genotype with
          | error e =>
            intro h
            simp [DynamicProof.generateDynamic, hex, hrun, emptyFailProofData] at h
          | ok arts =>
            intro _
            have hne := hbk _ _ _ arts hrun
            simp only [DynamicProof.generateDynamic, hex, hrun, ne_eq,
              not_true_eq_false, if_false]
            exact hne
        · intro h
          simp [DynamicProof.generateDynamic, hex, halt, emptyFailProofData] at h
      · intro h
        simp [DynamicProof.generateDynamic, hex, href, emptyFailProofData] at h

/-- C9 witness: chromosome generation over the single label "22" with a
backend producing fixed non-empty artifacts succeeds with non-empty proof
and verifying-key bytes. -/
theorem claim_C9_witness :
    (ChromosomeProof.generate demoChromBackend [gs "22"]).1.proof ≠ [] ∧
    (ChromosomeProof.generate demoChromBackend [gs "22"]).1.verifyingKey ≠ [] :=
  claim_C9_success_nonempty.2.2.2.1 demoChromBackend [gs "22"]
    (fun t slots arts h => by
      simp only [demoChromBackend, Except.ok.injEq] at h
      subst h
      exact ⟨by decide, by decide⟩)
    (by decide)

/-- Digit characters are decoded back to their value. -/
theorem charDigitVal_digitChar (d : Nat) (hd : d < 10) :
    charDigitVal (digitChar d) = some d := by
  interval_cases d <;> decide

/-- Digit characters are decimal digits. -/
theorem digitChar_isDigit (d : Nat) (hd : d < 10) : (digitChar d).isDigit = true := by
  interval_cases d <;> decide

/-- Every character of `natReprAux` output is a decimal digit. -/
theorem natReprAux_digits :
    ∀ (f n : Nat), ∀ c ∈ natReprAux f n, c.isDigit = true := by
  intro f
  induction f with
  | zero => intro n c hc; simp [natReprAux] at hc
  | succ f ih =>
    intro n c hc
    by_cases hz : n = 0
    · simp [natReprAux, hz] at hc
    · simp only [natReprAux, if_neg hz, List.mem_append, List.mem_singleton] at hc
      rcases hc with hc | hc
      · exact ih _ c hc
      · subst hc
        exact digitChar_isDigit _ (Nat.mod_lt _ (by omega))

/-- Every character of `natRepr` output is a decimal digit. -/
theorem natRepr_digits (n : Nat) : ∀ c ∈ natRepr n, c.isDigit = true := by
  intro c hc
  by_cases hz : n = 0
  · simp only [natRepr, if_pos hz, List.mem_singleton] at hc
    subst hc; decide
  · simp only [natRepr, if_neg hz] at hc
    exact natReprAux_digits n n c hc

/-- `natRepr` output is never empty. -/
theorem natRepr_ne_nil (n : Nat) : natRepr n ≠ [] := by
  by_cases hz : n = 0
  · simp [natRepr, hz]
  · simp only [natRepr, if_neg hz]
    cases n with
    | zero => exact absurd rfl hz
    | succ m =>
      simp [natReprAux, hz]

/-- Reading the digits of `n` after any accumulator multiplies the
accumulator by the corresponding power of ten and adds `n`. -/
theorem parseDigitsAux_natReprAux :
    ∀ (f n : Nat), n ≤ f → ∀ (rest : List Char) (acc : Nat),
      parseDigitsAux (natReprAux f n ++ rest) acc =
        parseDigitsAux rest (acc * 10 ^ (natReprAux f n).length + n) := by
  intro f
  induction f with
  | zero =>
    intro n hn rest acc
    interval_cases n
    simp [natReprAux]
  | succ f ih =>
    intro n hn rest acc
    by_cases hz : n = 0
    · subst hz; simp [natReprAux]
    · have hdiv : n / 10 ≤ f := by
        have : n / 10 < n := Nat.div_lt_self (by omega) (by omega)
        omega
      simp only [natReprAux, if_neg hz]
      rw [List.append_assoc, ih (n / 10) hdiv]
      have hm : n % 10 < 10 := Nat.mod_lt _ (by omega)
      simp only [List.singleton_append, parseDigitsAux, charDigitVal_digitChar _ hm]
      have hlen : (natReprAux f (n / 10) ++ [digitChar (n % 10)]).length =
          (natReprAux f (n / 10)).length + 1 := by simp
      rw [hlen]
      congr 1
      rw [pow_succ, ← mul_assoc]
      have hsplit : 10 * (n / 10) + n % 10 = n := Nat.div_add_mod n 10
      have : 10 * (acc * 10 ^ (natReprAux f (n / 10)).length + n / 10) =
          acc * 10 ^ (natReprAux f (n / 10)).length * 10 + 10 * (n / 10) := by ring
      omega

/-- `parseDigits` inverts `natRepr`. -/
theorem parseDigits_natRepr (n : Nat) : parseDigits (natRepr n) = some n := by
  by_cases hz : n = 0
  · subst hz; decide
  · have hne : natRepr n ≠ [] := natRepr_ne_nil n
    simp only [natRepr, if_neg hz] at hne ⊢
    rw [parseDigits, if_neg (by exact hne)]
    have h := parseDigitsAux_natReprAux n n le_rfl [] 0
    rw [List.append_nil] at h
    rw [h]
    simp [parseDigitsAux]

/-- `goAtoi` inverts `natRepr`. -/
theorem goAtoi_natRepr (n : Nat) : goAtoi (natRepr n) = some (n : Int) := by
  cases h : natRepr n with
  | nil => exact absurd h (natRepr_ne_nil n)
  | cons c cs =>
    have hd : c.isDigit = true := natRepr_digits n c (h ▸ List.mem_cons_self c cs)
    have h1 : ¬(c = '-') := by
      intro hc; rw [hc] at hd; exact absurd hd (by decide)
    have h2 : ¬(c = '+') := by
      intro hc; rw [hc] at hd; exact absurd hd (by decide)
    simp only [goAtoi, if_neg h1, if_neg h2]
    rw [← h, parseDigits_natRepr]
    rfl

/-- `goAtoi` inverts `intRepr`: the model of `strconv.Atoi` recovers every
integer from its decimal text. -/
theorem goAtoi_intRepr (a : Int) : goAtoi (intRepr a) = some a := by
  by_cases ha : a < 0
  · simp only [intRepr, if_pos ha, goAtoi, if_pos rfl]
    have h := parseDigits_natRepr a.natAbs
    rw [h]
    show some (-(a.natAbs : Int)) = some a
    congr 1
    omega
  · simp only [intRepr, if_neg ha]
    rw [goAtoi_natRepr]
    congr 1
    omega

/-- Every character of `intRepr` output is a digit or the minus sign. -/
theorem intRepr_chars (a : Int) :
    ∀ c ∈ intRepr a, c.isDigit = true ∨ c = '-' := by
  intro c hc
  by_cases ha : a < 0
  · simp only [intRepr, if_pos ha, List.mem_cons] at hc
    rcases hc with hc | hc
    · exact Or.inr hc
    · exact Or.inl (natRepr_digits _ c hc)
  · simp only [intRepr, if_neg ha] at hc
    exact Or.inl (natRepr_digits _ c hc)

/-- No character of `intRepr` output is a genotype separator. -/
theorem intRepr_not_sep (a : Int) :
    ∀ c ∈ intRepr a, c ≠ '/' ∧ c ≠ '|' := by
  intro c hc
  rcases intRepr_chars a c hc with hd | hm
  · constructor <;> intro hcc <;> rw [hcc] at hd <;> exact absurd hd (by decide)
  · subst hm; exact ⟨by decide, by decide⟩

/-- `splitChar` always yields at least one piece. -/
theorem splitChar_ne_nil (sep : Char) (l : List Char) : splitChar sep l ≠ [] := by
  cases l with
  | nil => simp [splitChar]
  | cons c cs =>
    simp only [splitChar]
    cases splitChar sep cs with
    | nil => simp
    | cons cur rest => by_cases hc : c = sep <;> simp [hc]

/-- Splitting a separator-free string yields the string itself. -/
theorem splitChar_no_sep (sep : Char) (l : List Char)
    (h : ∀ c ∈ l, c ≠ sep) : splitChar sep l = [l] := by
  induction l with
  | nil => rfl
  | cons c cs ih =>
    have hc : c ≠ sep := h c (List.mem_cons_self _ _)
    simp only [splitChar, ih fun x hx => h x (List.mem_cons_of_mem _ hx)]
    rw [if_neg hc]

/-- Splitting at the unique separator occurrence peels off the head piece. -/
theorem splitChar_append (sep : Char) (l₁ l₂ : List Char)
    (h : ∀ c ∈ l₁, c ≠ sep) :
    splitChar sep (l₁ ++ sep :: l₂) = l₁ :: splitChar sep l₂ := by
  induction l₁ with
  | nil =>
    simp only [List.nil_append, splitChar]
    cases hs : splitChar sep l₂ with
    | nil => exact absurd hs (splitChar_ne_nil sep l₂)
    | cons cur rest => simp
  | cons c cs ih =>
    have hc : c ≠ sep := h c (List.mem_cons_self _ _)
    have ihh := ih fun x hx => h x (List.mem_cons_of_mem _ hx)
    simp only [List.cons_append, splitChar, List.append_eq, ihh]
    rw [if_neg hc]

/-- Splitting a two-piece string with separator-free pieces. -/
theorem splitChar_pair (sep : Char) (l₁ l₂ : List Char)
    (h₁ : ∀ c ∈ l₁, c ≠ sep) (h₂ : ∀ c ∈ l₂, c ≠ sep) :
    splitChar sep (l₁ ++ sep :: l₂) = [l₁, l₂] := by
  rw [splitChar_append sep l₁ l₂ h₁, splitChar_no_sep sep l₂ h₂]

/-- A string containing the separator is reported as containing it. -/
theorem stringsContains_append_self (l₁ l₂ : List Char) (c : Char) :
    stringsContains (l₁ ++ c :: l₂) c = true := by
  simp [stringsContains, List.mem_append]

/-- A character absent from both pieces and distinct from the separator is
not contained. -/
theorem stringsContains_false (l₁ l₂ : List Char) (sep x : Char)
    (h₁ : ∀ c ∈ l₁, c ≠ x) (h₂ : ∀ c ∈ l₂, c ≠ x) (hs : sep ≠ x) :
    stringsContains (l₁ ++ sep :: l₂) x = false := by
  simp only [stringsContains, decide_eq_false_iff_not, List.mem_append, List.mem_cons]
  rintro (hx | hx | hx)
  · exact h₁ x hx rfl
  · exact hs hx.symm
  · exact h₂ x hx rfl

/-- The shared 0/1-pair decoding cascade agrees, at the `Option` level, with
the allele decoder (which additionally pre-screens negative indices, all of
which the cascade rejects anyway). -/
theorem cascade_agrees (a b : Int) (s : List Char) :
    (if a = 0 ∧ b = 0 then (Except.ok 0 : Except GoErr Int)
     else if (a = 0 ∧ b = 1) ∨ (a = 1 ∧ b = 0) then .ok 1
     else if a = 1 ∧ b = 1 then .ok 2
     else .error (.unsupportedGenotypeString s)).toOption =
      (parseGenotypeFromInts [a, b]).toOption := by
  simp only [parseGenotypeFromInts]
  split_ifs <;> first | rfl | (exfalso; omega)

/-- Decoding the textual encoding of an allele pair under either separator
agrees, at the `Option` level, with decoding the pair directly. -/
theorem parseGenotype_encode (a b : Int) (ref alt : List Char) (sep : Char)
    (hsep : sep = '/' ∨ sep = '|') :
    (parseGenotype (genotypeText a b sep) ref alt).toOption =
      (parseGenotypeFromInts [a, b]).toOption := by
  rcases hsep with h | h <;> subst h
  · have hcon : stringsContains (genotypeText a b '/') '/' = true :=
      stringsContains_append_self (intRepr a) (intRepr b) '/'
    have hsplit : splitChar '/' (genotypeText a b '/') = [intRepr a, intRepr b] :=
      splitChar_pair '/' (intRepr a) (intRepr b)
        (fun c hc => (intRepr_not_sep a c hc).1)
        (fun c hc => (intRepr_not_sep b c hc).1)
    simp only [parseGenotype, hcon, if_true, hsplit, goAtoi_intRepr]
    exact cascade_agrees a b _
  · have hno : stringsContains (genotypeText a b '|') '/' = false :=
      stringsContains_false (intRepr a) (intRepr b) '|' '/'
        (fun c hc => (intRepr_not_sep a c hc).1)
        (fun c hc => (intRepr_not_sep b c hc).1)
        (by decide)
    have hcon : stringsContains (genotypeText a b '|') '|' = true :=
      stringsContains_append_self (intRepr a) (intRepr b) '|'
    have hsplit : splitChar '|' (genotypeText a b '|') = [intRepr a, intRepr b] :=
      splitChar_pair '|' (intRepr a) (intRepr b)
        (fun c hc => (intRepr_not_sep a c hc).2)
        (fun c hc => (intRepr_not_sep b c hc).2)
    simp only [parseGenotype, hno, hcon, if_true, Bool.false_eq_true, if_false,
      hsplit, goAtoi_intRepr]
    exact cascade_agrees a b _

/-- C7: decoding the genotype string formed from an allele pair, under both
the unphased and the phased separator, yields the same genotype value (or
fails in exactly the same cases) as decoding the pair directly; a string
formed with any other separator fails with the invalid-format error; and a
non-numeric first allele fails with the invalid-allele error. -/
theorem claim_C7_text_decoder_agrees :
    (∀ (a b : Int) (ref alt : List Char) (sep : Char), sep = '/' ∨ sep = '|' →
        (parseGenotype (genotypeText a b sep) ref alt).toOption =
          (parseGenotypeFromInts [a, b]).toOption) ∧
    (∀ (a b : Int) (ref alt : List Char) (sep : Char), sep ≠ '/' → sep ≠ '|' →
        parseGenotype (genotypeText a b sep) ref alt =
          .error (.invalidGenotypeFormat (genotypeText a b sep))) ∧
    (∀ (t : List Char) (b : Int) (ref alt : List Char),
        goAtoi t = none → (∀ c ∈ t, c ≠ '/') →
        parseGenotype (t ++ '/' :: intRepr b) ref alt =
          .error (.invalidAllele t)) := by
  refine ⟨parseGenotype_encode, ?_, ?_⟩
  · intro a b ref alt sep h1 h2
    have hno1 : stringsContains (genotypeText a b sep) '/' = false :=
      stringsContains_false (intRepr a) (intRepr b) sep '/'
        (fun c hc => (intRepr_not_sep a c hc).1)
        (fun c hc => (intRepr_not_sep b c hc).1) h1
    have hno2 : stringsContains (genotypeText a b sep) '|' = false :=
      stringsContains_false (intRepr a) (intRepr b) sep '|'
        (fun c hc => (intRepr_not_sep a c hc).2)
        (fun c hc => (intRepr_not_sep b c hc).2) h2
    simp only [parseGenotype, hno1, hno2, Bool.false_eq_true, if_false]
  · intro t b ref alt hnone ht
    have hcon : stringsContains (t ++ '/' :: intRepr b) '/' = true :=
      stringsContains_append_self t (intRepr b) '/'
    have hsplit : splitChar '/' (t ++ '/' :: intRepr b) = [t, intRepr b] :=
      splitChar_pair '/' t (intRepr b) ht
        (fun c hc => (intRepr_not_sep b c hc).1)
    simp only [parseGenotype, hcon, if_true, hsplit, hnone]

/-- C7 witness: the pair (0,1) under both separators, the separator `x`,
and the non-numeric allele text `ab`. -/
theorem claim_C7_witness :
    (parseGenotype (genotypeText 0 1 '/') (gs "G") (gs "A")).toOption =
      (parseGenotypeFromInts [(0 : Int), 1]).toOption ∧
    parseGenotype (genotypeText 0 1 'x') (gs "G") (gs "A") =
      .error (.invalidGenotypeFormat (genotypeText 0 1 'x')) ∧
    parseGenotype (gs "ab" ++ '/' :: intRepr 1) (gs "G") (gs "A") =
      .error (.invalidAllele (gs "ab")) :=
  ⟨claim_C7_text_decoder_agrees.1 0 1 (gs "G") (gs "A") '/' (Or.inl rfl),
   claim_C7_text_decoder_agrees.2.1 0 1 (gs "G") (gs "A") 'x' (by decide) (by decide),
   claim_C7_text_decoder_agrees.2.2 (gs "ab") 1 (gs "G") (gs "A") (by decide) (by decide)⟩

end ZkGenomics
